import Mathlib

/-!
Verification development for the UnifiedRecommendationEngine core
(`src/recommender.py`, `src/active_learning.py`).

Embedding conventions:
* Python `float` scores and weights are modelled as `ℚ` (exact arithmetic);
  the claims under study are about branch selection, additivity and ordering,
  all of which are preserved by this idealisation.
* Python strings are Lean `String`s; every string operation of the source
  (`.lower()`, `.split(";")`, `.split()`, `.strip()`, the `in` substring
  test) is implemented structurally on `String.data : List Char` so that
  ground instances evaluate inside the kernel.
* The per-candidate dataframe lookup `df.query(id_col == eid).iloc[0]` in
  `recommend_for_user` returns the candidate's own row: `entity_ids` and the
  dataset rows are built from the same dataframe in the same order and ids
  are unique within a type (the data contract of the loader).  The model
  therefore carries each candidate's row and embedding vector together in
  one `Asset` record.
* `np.argsort(-final_scores)` uses NumPy's default introsort, whose order
  on equal keys is implementation-defined (it is NOT stable in general).
  The model (`sortDesc`) is one concrete deterministic refinement of that
  contract: a descending sort that happens to be stable.  No theorem below
  relies on the tie order except the tie-order counterexample, which uses a
  two-element array, where NumPy runs a plain insertion sort and every
  deterministic comparison sort — stable or not — returns `[0, 1]` on an
  equal-keyed pair, agreeing with the model.
* The unseeded `random.random()` draws of `simulate_feedback` are passed
  explicitly as a list of rationals in `[0,1)`, one per recommendation.
-/

/-! ### Python string primitives, structurally on `List Char` -/

/-- Lower-case a character list (Python `str.lower`, ASCII range as in
`Char.toLower`). -/
def lowerChars (s : List Char) : List Char := s.map Char.toLower

/-- Split a character list at every character satisfying `p`, keeping empty
segments — the behaviour of Python `str.split(sep)` for a one-character
separator when `p` tests that separator.  `splitPred p [] = [[]]`, matching
`"".split(";") == [""]`. -/
def splitPred (p : Char → Bool) : List Char → List (List Char)
  | [] => [[]]
  | c :: cs =>
    if p c then [] :: splitPred p cs
    else
      match splitPred p cs with
      | [] => [[c]]
      | t :: ts => (c :: t) :: ts

/-- Python `s.split(";")`. -/
def splitSemi (s : List Char) : List (List Char) := splitPred (fun c => c == ';') s

/-- Python `s.split()` — maximal runs of non-whitespace; never yields the
empty token. -/
def splitWhite (s : List Char) : List (List Char) :=
  (splitPred Char.isWhitespace s).filter (fun t => !t.isEmpty)

/-- Python `s.strip()`: drop whitespace from both ends. -/
def stripChars (s : List Char) : List Char :=
  ((s.dropWhile Char.isWhitespace).reverse.dropWhile Char.isWhitespace).reverse

/-- Does `needle` occur at the head of `hay`? -/
def headMatch : List Char → List Char → Bool
  | [], _ => true
  | _ :: _, [] => false
  | a :: as, b :: bs => a == b && headMatch as bs

/-- Python substring test `needle in hay`; the empty needle occurs in every
string. -/
def pyIn (needle : List Char) : List Char → Bool
  | [] => needle.isEmpty
  | b :: bs => headMatch needle (b :: bs) || pyIn needle bs

/-! ### Data model -/

/-- A candidate asset: the dataset row fields `recommend_for_user` and
`_compute_popularity_score` read (`id`, `category`, `city`, `tags`,
`description`) together with its TF-IDF embedding row (see the header note
on the row/vector alignment). -/
structure Asset where
  id : String
  category : String
  city : String
  tags : String
  description : String
  vec : List ℚ
deriving DecidableEq, Repr

/-- The user dataframe fields read by the boost rules. -/
structure UserRow where
  user_id : String
  city : String
  interests : String
deriving DecidableEq, Repr

/-- The recommendation dict produced by `recommend_for_user`:
`{user_id, asset_id, asset_type, score, reason}`. -/
structure Recommendation where
  user_id : String
  asset_id : String
  asset_type : String
  score : ℚ
  reason : String
deriving DecidableEq, Repr

/-- A feedback tuple `(user_id, asset_type, asset_id, feedback)` as produced
by `simulate_feedback`. -/
structure FeedbackEntry where
  user_id : String
  asset_type : String
  asset_id : String
  signal : Int
deriving DecidableEq, Repr

/-! ### Popularity scorer (`_compute_popularity_score`) -/

/-- Python `len([t for t in tags.split(";") if t.strip()])` — count of
`;`-delimited tag tokens whose strip is non-empty. -/
def tagCount (tags : String) : ℕ :=
  ((splitSemi tags.data).filter (fun t => !(stripChars t).isEmpty)).length

/-- The raw (pre-normalisation) popularity value of one asset:
`max(1, tag token count) + len(description) / 1000.0`. -/
def rawPop (a : Asset) : ℚ :=
  ((max 1 (tagCount a.tags) : ℕ) : ℚ) + (a.description.data.length : ℚ) / 1000

/-- NumPy `vals.min()` of a nonempty list (0 for `[]`, unused there). -/
def listMin : List ℚ → ℚ
  | [] => 0
  | x :: xs => xs.foldl min x

/-- NumPy `vals.max()` of a nonempty list (0 for `[]`, unused there). -/
def listMax : List ℚ → ℚ
  | [] => 0
  | x :: xs => xs.foldl max x

/-- The final popularity value of asset `a` inside pool `assets`: min-max
rescaled when the pool has spread, raw otherwise. -/
def popVal (assets : List Asset) (a : Asset) : ℚ :=
  if listMin (assets.map rawPop) < listMax (assets.map rawPop) then
    (rawPop a - listMin (assets.map rawPop))
      / (listMax (assets.map rawPop) - listMin (assets.map rawPop))
  else rawPop a

/-- Source `_compute_popularity_score`: the id → score mapping, as an association
list in pool order (ids are unique within a type, so the Python dict and
this list agree). -/
def compute_popularity_score (assets : List Asset) : List (String × ℚ) :=
  assets.map (fun a => (a.id, popVal assets a))

/-- Lookup `self.popularity[asset_type].get(eid, 0.0)`. -/
def popLookup (assets : List Asset) (eid : String) : ℚ :=
  ((compute_popularity_score assets).lookup eid).getD 0

/-! ### Boost rules (`recommend_for_user`, lines 67–94) -/

/-- Condition `user_city and user_city == city` — the city boost condition; Python
truthiness makes an empty user city always fail it. -/
def cityMatch (user : UserRow) (a : Asset) : Bool :=
  let uc := lowerChars user.city.data
  !uc.isEmpty && uc == lowerChars a.city.data

/-- Condition `any(k for k in cat.split() if k in user_interests)` — a whitespace
token of the candidate's category occurs as a substring of the user's
interests (tokens from `split()` are never empty, hence always truthy). -/
def catOverlap (user : UserRow) (a : Asset) : Bool :=
  (splitWhite (lowerChars a.category.data)).any
    (fun k => pyIn k (lowerChars user.interests.data))

/-- Condition `any(t.strip() in user_interests for t in tags.split(";"))` — a trimmed
`;`-delimited tag token of the candidate occurs as a substring of the
user's interests. -/
def tagOverlap (user : UserRow) (a : Asset) : Bool :=
  (splitSemi (lowerChars a.tags.data)).any
    (fun t => pyIn (stripChars t) (lowerChars user.interests.data))

/-- The additive boost of one candidate: +0.10 city, +0.05 category,
+0.03 tags. -/
def boost (user : UserRow) (a : Asset) : ℚ :=
  (if cityMatch user a then 1/10 else 0)
    + (if catOverlap user a then 1/20 else 0)
    + (if tagOverlap user a then 3/100 else 0)

/-! ### Base scores and ranking (`recommend_for_user`) -/

/-- Cold-start test `user_vec.nnz == 0`: a stored sparse row with no
nonzero entries is exactly the zero vector. -/
def isZeroVec (v : List ℚ) : Bool := v.all (fun x => x == 0)

/-- Dot product; equals `cosine_similarity` on the L2-unit-normalised rows
produced by `feature_builder.transform_texts` (and both are 0 when a row is
zero). -/
def dot (u v : List ℚ) : ℚ := (List.zipWith (· * ·) u v).sum

/-- The base score of candidate `a` before boosts: popularity on cold
start, cosine similarity otherwise. -/
def baseScore (uvec : List ℚ) (assets : List Asset) (a : Asset) : ℚ :=
  if isZeroVec uvec then popLookup assets a.id else dot uvec a.vec

/-- Sum `final_scores = scores + boosts` for one candidate. -/
def finalScore (user : UserRow) (uvec : List ℚ) (assets : List Asset) (a : Asset) : ℚ :=
  baseScore uvec assets a + boost user a

/-- Insert into a list sorted by non-increasing score, after any
strictly-greater entries and before equal ones. -/
def insertDesc (p : Asset × ℚ) : List (Asset × ℚ) → List (Asset × ℚ)
  | [] => [p]
  | q :: qs => if p.2 < q.2 then q :: insertDesc p qs else p :: q :: qs

/-- Sort by non-increasing score — the model of
`np.argsort(-final_scores)`.  The source's tie order is
implementation-defined; this model fixes one deterministic choice, and no
theorem depends on that choice except the two-element tie counterexample,
on which every deterministic comparison sort agrees (see header note). -/
def sortDesc : List (Asset × ℚ) → List (Asset × ℚ)
  | [] => []
  | p :: ps => insertDesc p (sortDesc ps)

/-- Slice `asset_type[:-1]`: the singular label. -/
def singularize (s : String) : String := ⟨s.data.dropLast⟩

/-- The reason string chosen once per call. -/
def reasonFor (uvec : List ℚ) : String :=
  if isZeroVec uvec then "popularity fallback" else "text-based similarity"

/-- Method `Recommender.recommend_for_user`, for a user already present in the
embedding space (`user` its dataframe row, `uvec` its embedding row,
`assets` the candidate pool of the requested `asset_type`). -/
def recommend_for_user (user : UserRow) (uvec : List ℚ) (assets : List Asset)
    (asset_type : String) (top_n : ℕ) : List Recommendation :=
  ((sortDesc (assets.map (fun a => (a, finalScore user uvec assets a)))).take top_n).map
    (fun p => ⟨user.user_id, p.1.id, singularize asset_type, p.2, reasonFor uvec⟩)

/-! ### Active learning (`ActiveLearner`) -/

/-- Default `ActiveLearner.positive_weight`. -/
def defaultPositiveWeight : ℚ := 1/5

/-- Default `ActiveLearner.negative_weight`. -/
def defaultNegativeWeight : ℚ := -(1/4)

/-- Method `ActiveLearner.simulate_feedback`, with the unseeded `random.random()`
draws passed explicitly (one rational in `[0,1)` per recommendation, in
order).  Note the source performs no validation of the ratios. -/
def simulate_feedback (recs : List Recommendation)
    (positive_ratio negative_ratio : ℚ) (draws : List ℚ) : List FeedbackEntry :=
  (recs.zip draws).filterMap (fun rd =>
    if rd.2 < negative_ratio then
      some ⟨rd.1.user_id, rd.1.asset_type, rd.1.asset_id, -1⟩
    else if rd.2 < negative_ratio + positive_ratio then
      some ⟨rd.1.user_id, rd.1.asset_type, rd.1.asset_id, 1⟩
    else none)

/-- The aggregation key `(user_id, asset_type, asset_id)` of a feedback
tuple. -/
def fbKey (e : FeedbackEntry) : String × String × String :=
  (e.user_id, e.asset_type, e.asset_id)

/-- The key of a recommendation, as read in `apply_feedback`. -/
def recKey (r : Recommendation) : String × String × String :=
  (r.user_id, r.asset_type, r.asset_id)

/-- Does `fb_map` contain the key — i.e. does any feedback tuple carry it? -/
def fbHasKey (fb : List FeedbackEntry) (k : String × String × String) : Bool :=
  fb.any (fun e => fbKey e == k)

/-- Aggregate `fb_map[key]`: the summed signal of all feedback tuples with key `k`. -/
def fbSum (fb : List FeedbackEntry) (k : String × String × String) : Int :=
  ((fb.filter (fun e => fbKey e == k)).map (fun e => e.signal)).sum

/-- The per-recommendation body of the `apply_feedback` loop. -/
def adjustRec (pw nw : ℚ) (fb : List FeedbackEntry) (r : Recommendation) :
    Recommendation :=
  if fbHasKey fb (recKey r) then
    if 0 < fbSum fb (recKey r) then
      { r with score := r.score + pw,
               reason := r.reason ++ "; feedback adjusted (positive)" }
    else
      { r with score := max 0 (r.score + nw),
               reason := r.reason ++ "; feedback adjusted (negative)" }
  else r

/-- Method `ActiveLearner.apply_feedback` with weights `pw`, `nw`. -/
def apply_feedback (pw nw : ℚ) (recs : List Recommendation)
    (fb : List FeedbackEntry) : List Recommendation :=
  recs.map (adjustRec pw nw fb)

/-! ### Helper lemmas -/

/-- The empty needle occurs in every string (Python `"" in s` is `True`). -/
theorem pyIn_nil_needle (l : List Char) : pyIn [] l = true := by
  cases l with
  | nil => rfl
  | cons b bs => simp [pyIn, headMatch]

theorem data_empty_string : ("" : String).data = [] := rfl

/-! ### C9 — empty tags always earn the +0.03 tag boost -/

/-- C9: for every candidate whose `tags` attribute is the empty string, the
tag-overlap condition holds for every user (splitting `""` on `;` yields the
single empty token, whose strip is a substring of every interests string),
so the +0.03 boost is always applied. -/
theorem empty_tags_always_tag_boost (user : UserRow) (a : Asset) (h : a.tags = "") :
    tagOverlap user a = true ∧
    boost user a =
      (if cityMatch user a then 1/10 else 0)
        + (if catOverlap user a then 1/20 else 0) + 3/100 := by
  have ht : tagOverlap user a = true := by
    rw [tagOverlap, h]
    simp [data_empty_string, lowerChars, splitSemi, splitPred, stripChars, pyIn_nil_needle]
  refine ⟨ht, ?_⟩
  rw [boost, ht]
  simp

/-- Witness for C9 at a concrete user and a concrete tagless asset. -/
theorem empty_tags_always_tag_boost_witness :
    tagOverlap ⟨"u1", "Paris", "hiking"⟩ ⟨"e1", "Sports", "lyon", "", "d", [1]⟩ = true ∧
    boost ⟨"u1", "Paris", "hiking"⟩ ⟨"e1", "Sports", "lyon", "", "d", [1]⟩ =
      (if cityMatch ⟨"u1", "Paris", "hiking"⟩ ⟨"e1", "Sports", "lyon", "", "d", [1]⟩ then 1/10 else 0)
        + (if catOverlap ⟨"u1", "Paris", "hiking"⟩ ⟨"e1", "Sports", "lyon", "", "d", [1]⟩ then 1/20 else 0)
        + 3/100 :=
  empty_tags_always_tag_boost ⟨"u1", "Paris", "hiking"⟩ ⟨"e1", "Sports", "lyon", "", "d", [1]⟩ rfl

/-! ### C10 — an empty user city never earns the +0.10 city boost -/

/-- C10: `if user_city and user_city == city` is guarded by Python
truthiness, so a user with empty `city` never gets the +0.10 boost, even
against a candidate whose own city is also empty. -/
theorem empty_city_never_city_boost (user : UserRow) (a : Asset) (h : user.city = "") :
    cityMatch user a = false ∧
    boost user a =
      (if catOverlap user a then 1/20 else 0)
        + (if tagOverlap user a then 3/100 else 0) := by
  have hc : cityMatch user a = false := by
    rw [cityMatch, h]
    simp [data_empty_string, lowerChars]
  refine ⟨hc, ?_⟩
  rw [boost, hc]
  simp

/-- Witness for C10: empty user city against a candidate with empty city —
empty does not match empty. -/
theorem empty_city_never_city_boost_witness :
    cityMatch ⟨"u2", "", "music"⟩ ⟨"e2", "Arts", "", "music", "d", [1]⟩ = false ∧
    boost ⟨"u2", "", "music"⟩ ⟨"e2", "Arts", "", "music", "d", [1]⟩ =
      (if catOverlap ⟨"u2", "", "music"⟩ ⟨"e2", "Arts", "", "music", "d", [1]⟩ then 1/20 else 0)
        + (if tagOverlap ⟨"u2", "", "music"⟩ ⟨"e2", "Arts", "", "music", "d", [1]⟩ then 3/100 else 0) :=
  empty_city_never_city_boost ⟨"u2", "", "music"⟩ ⟨"e2", "Arts", "", "music", "d", [1]⟩ rfl

/-! ### C5 — boosts are additive and branch-independent -/

/-- C5: when the city, category and tag rules all fire, the final score is
exactly `base + 0.10 + 0.05 + 0.03`, whichever branch produced the base
score (`baseScore` covers both the similarity and the popularity case). -/
theorem boost_additivity (user : UserRow) (uvec : List ℚ) (assets : List Asset) (a : Asset)
    (h1 : cityMatch user a = true) (h2 : catOverlap user a = true)
    (h3 : tagOverlap user a = true) :
    finalScore user uvec assets a = baseScore uvec assets a + 1/10 + 1/20 + 3/100 := by
  rw [finalScore, boost, h1, h2, h3]
  simp
  ring

/-- Witness for C5: a concrete user/asset pair satisfying all three rules,
on the popularity branch (zero user vector). -/
theorem boost_additivity_witness :
    cityMatch ⟨"u3", "Berlin", "tech music"⟩ ⟨"e3", "Tech", "berlin", "music", "d", [1]⟩ = true ∧
    catOverlap ⟨"u3", "Berlin", "tech music"⟩ ⟨"e3", "Tech", "berlin", "music", "d", [1]⟩ = true ∧
    tagOverlap ⟨"u3", "Berlin", "tech music"⟩ ⟨"e3", "Tech", "berlin", "music", "d", [1]⟩ = true ∧
    finalScore ⟨"u3", "Berlin", "tech music"⟩ [0] [⟨"e3", "Tech", "berlin", "music", "d", [1]⟩]
        ⟨"e3", "Tech", "berlin", "music", "d", [1]⟩ =
      baseScore [0] [⟨"e3", "Tech", "berlin", "music", "d", [1]⟩]
          ⟨"e3", "Tech", "berlin", "music", "d", [1]⟩ + 1/10 + 1/20 + 3/100 :=
  ⟨by decide, by decide, by decide,
    boost_additivity ⟨"u3", "Berlin", "tech music"⟩ [0]
      [⟨"e3", "Tech", "berlin", "music", "d", [1]⟩] ⟨"e3", "Tech", "berlin", "music", "d", [1]⟩
      (by decide) (by decide) (by decide)⟩

/-! ### C3 — feedback adjustment semantics (zero treated as negative) -/

/-- C3: in `apply_feedback`, a recommendation whose key has aggregated
feedback gets `score + positive_weight` and the `(positive)` reason suffix
when the summed signal is strictly positive, and `max(0, score +
negative_weight)` with the `(negative)` suffix when the sum is zero or
negative. -/
theorem apply_feedback_adjustment (pw nw : ℚ) (fb : List FeedbackEntry)
    (recs : List Recommendation) (r : Recommendation) (hr : r ∈ recs)
    (hk : fbHasKey fb (recKey r) = true) :
    adjustRec pw nw fb r ∈ apply_feedback pw nw recs fb ∧
    (0 < fbSum fb (recKey r) →
      adjustRec pw nw fb r =
        { r with score := r.score + pw,
                 reason := r.reason ++ "; feedback adjusted (positive)" }) ∧
    (fbSum fb (recKey r) ≤ 0 →
      adjustRec pw nw fb r =
        { r with score := max 0 (r.score + nw),
                 reason := r.reason ++ "; feedback adjusted (negative)" }) := by
  refine ⟨List.mem_map_of_mem _ hr, ?_, ?_⟩
  · intro hpos
    rw [adjustRec, hk]
    simp [hpos]
  · intro hneg
    rw [adjustRec, hk]
    simp [not_lt.mpr hneg]

/-- Witness for C3: a key with one `+1` and one `-1` event sums to zero and
takes the negative branch (the spec's aggregation scenario). -/
theorem apply_feedback_adjustment_witness :
    fbSum [⟨"u", "event", "e1", 1⟩, ⟨"u", "event", "e1", -1⟩]
        (recKey ⟨"u", "e1", "event", 1, "text-based similarity"⟩) = 0 ∧
    (adjustRec (1/5) (-(1/4)) [⟨"u", "event", "e1", 1⟩, ⟨"u", "event", "e1", -1⟩]
        ⟨"u", "e1", "event", 1, "text-based similarity"⟩ ∈
      apply_feedback (1/5) (-(1/4)) [⟨"u", "e1", "event", 1, "text-based similarity"⟩]
        [⟨"u", "event", "e1", 1⟩, ⟨"u", "event", "e1", -1⟩] ∧
    (0 < fbSum [⟨"u", "event", "e1", 1⟩, ⟨"u", "event", "e1", -1⟩]
        (recKey ⟨"u", "e1", "event", 1, "text-based similarity"⟩) →
      adjustRec (1/5) (-(1/4)) [⟨"u", "event", "e1", 1⟩, ⟨"u", "event", "e1", -1⟩]
          ⟨"u", "e1", "event", 1, "text-based similarity"⟩ =
        { user_id := "u", asset_id := "e1", asset_type := "event",
          score := (1 : ℚ) + 1/5,
          reason := "text-based similarity" ++ "; feedback adjusted (positive)" }) ∧
    (fbSum [⟨"u", "event", "e1", 1⟩, ⟨"u", "event", "e1", -1⟩]
        (recKey ⟨"u", "e1", "event", 1, "text-based similarity"⟩) ≤ 0 →
      adjustRec (1/5) (-(1/4)) [⟨"u", "event", "e1", 1⟩, ⟨"u", "event", "e1", -1⟩]
          ⟨"u", "e1", "event", 1, "text-based similarity"⟩ =
        { user_id := "u", asset_id := "e1", asset_type := "event",
          score := max 0 ((1 : ℚ) + -(1/4)),
          reason := "text-based similarity" ++ "; feedback adjusted (negative)" })) :=
  ⟨by decide,
    apply_feedback_adjustment (1/5) (-(1/4))
      [⟨"u", "event", "e1", 1⟩, ⟨"u", "event", "e1", -1⟩]
      [⟨"u", "e1", "event", 1, "text-based similarity"⟩]
      ⟨"u", "e1", "event", 1, "text-based similarity"⟩
      (List.mem_cons_self _ _) (by decide)⟩

/-! ### C7 — applying the same feedback twice compounds -/

/-- C7: `apply_feedback` is not idempotent — with the source's default
weights, applying one positive feedback set to a one-element
recommendation list yields score `6/5`, applying the same set twice yields
score `7/5`: the adjustment compounds, and the twice-applied score differs
from the once-applied one. -/
theorem apply_feedback_not_idempotent :
    (apply_feedback defaultPositiveWeight defaultNegativeWeight
        (apply_feedback defaultPositiveWeight defaultNegativeWeight
          [⟨"u", "e1", "event", 1, "text-based similarity"⟩] [⟨"u", "event", "e1", 1⟩])
        [⟨"u", "event", "e1", 1⟩]).map (fun r => r.score) = [7/5] ∧
    (apply_feedback defaultPositiveWeight defaultNegativeWeight
        [⟨"u", "e1", "event", 1, "text-based similarity"⟩] [⟨"u", "event", "e1", 1⟩]).map
        (fun r => r.score) = [6/5] ∧
    (apply_feedback defaultPositiveWeight defaultNegativeWeight
        (apply_feedback defaultPositiveWeight defaultNegativeWeight
          [⟨"u", "e1", "event", 1, "text-based similarity"⟩] [⟨"u", "event", "e1", 1⟩])
        [⟨"u", "event", "e1", 1⟩]).map (fun r => r.score) ≠
      (apply_feedback defaultPositiveWeight defaultNegativeWeight
        [⟨"u", "e1", "event", 1, "text-based similarity"⟩] [⟨"u", "event", "e1", 1⟩]).map
        (fun r => r.score) := by
  have hk : fbHasKey [⟨"u", "event", "e1", 1⟩]
      (recKey ⟨"u", "e1", "event", 1, "text-based similarity"⟩) = true := by decide
  have hs : 0 < fbSum [⟨"u", "event", "e1", 1⟩]
      (recKey ⟨"u", "e1", "event", 1, "text-based similarity"⟩) := by decide
  have h1 : apply_feedback defaultPositiveWeight defaultNegativeWeight
      [⟨"u", "e1", "event", 1, "text-based similarity"⟩] [⟨"u", "event", "e1", 1⟩] =
      [⟨"u", "e1", "event", 1 + defaultPositiveWeight,
        "text-based similarity; feedback adjusted (positive)"⟩] := by
    rw [apply_feedback, List.map_cons, List.map_nil, adjustRec, hk]
    simp [hs]
  have hk2 : fbHasKey [⟨"u", "event", "e1", 1⟩]
      (recKey ⟨"u", "e1", "event", 1 + defaultPositiveWeight,
        "text-based similarity; feedback adjusted (positive)"⟩) = true := by decide
  have hs2 : 0 < fbSum [⟨"u", "event", "e1", 1⟩]
      (recKey ⟨"u", "e1", "event", 1 + defaultPositiveWeight,
        "text-based similarity; feedback adjusted (positive)"⟩) := by decide
  have h2 : apply_feedback defaultPositiveWeight defaultNegativeWeight
      [⟨"u", "e1", "event", 1 + defaultPositiveWeight,
        "text-based similarity; feedback adjusted (positive)"⟩]
      [⟨"u", "event", "e1", 1⟩] =
      [⟨"u", "e1", "event", 1 + defaultPositiveWeight + defaultPositiveWeight,
        "text-based similarity; feedback adjusted (positive); feedback adjusted (positive)"⟩] := by
    rw [apply_feedback, List.map_cons, List.map_nil, adjustRec, hk2]
    simp [hs2]
  have hm1 : (apply_feedback defaultPositiveWeight defaultNegativeWeight
      [⟨"u", "e1", "event", 1, "text-based similarity"⟩] [⟨"u", "event", "e1", 1⟩]).map
      (fun r => r.score) = [6/5] := by
    rw [h1]
    simp only [List.map_cons, List.map_nil]
    norm_num [defaultPositiveWeight]
  have hm2 : (apply_feedback defaultPositiveWeight defaultNegativeWeight
      (apply_feedback defaultPositiveWeight defaultNegativeWeight
        [⟨"u", "e1", "event", 1, "text-based similarity"⟩] [⟨"u", "event", "e1", 1⟩])
      [⟨"u", "event", "e1", 1⟩]).map (fun r => r.score) = [7/5] := by
    rw [h1, h2]
    simp only [List.map_cons, List.map_nil]
    norm_num [defaultPositiveWeight]
  refine ⟨hm2, hm1, ?_⟩
  rw [hm2, hm1]
  intro h
  exact absurd (List.cons.inj h).1 (by norm_num)

/-! ### C8 — apply_feedback is a pure map; unmatched entries pass through -/

/-- C8: `apply_feedback` returns a fresh list of the same length (every
entry a new `adjustRec` result — the source copies before modifying, and
the embedding is a pure function of its inputs), and a recommendation whose
key has no feedback is returned unchanged at its position. -/
theorem apply_feedback_frame (pw nw : ℚ) (recs : List Recommendation)
    (fb : List FeedbackEntry) :
    (apply_feedback pw nw recs fb).length = recs.length ∧
    apply_feedback pw nw recs fb = recs.map (adjustRec pw nw fb) ∧
    ∀ (i : ℕ) (r : Recommendation), recs[i]? = some r →
      fbHasKey fb (recKey r) = false →
      (apply_feedback pw nw recs fb)[i]? = some r := by
  refine ⟨List.length_map _ _, rfl, ?_⟩
  intro i r hi hk
  rw [apply_feedback, List.getElem?_map, hi, Option.map_some']
  rw [adjustRec, hk]
  simp

/-- Witness for C8: non-matching feedback passes a concrete recommendation
through unchanged. -/
theorem apply_feedback_frame_witness :
    (apply_feedback (1/5) (-(1/4)) [⟨"u", "e1", "event", 1, "text-based similarity"⟩]
        [⟨"x", "event", "e9", -1⟩]).length =
      ([⟨"u", "e1", "event", 1, "text-based similarity"⟩] : List Recommendation).length ∧
    (apply_feedback (1/5) (-(1/4)) [⟨"u", "e1", "event", 1, "text-based similarity"⟩]
        [⟨"x", "event", "e9", -1⟩])[0]? =
      some ⟨"u", "e1", "event", 1, "text-based similarity"⟩ :=
  ⟨(apply_feedback_frame (1/5) (-(1/4)) [⟨"u", "e1", "event", 1, "text-based similarity"⟩]
      [⟨"x", "event", "e9", -1⟩]).1,
    (apply_feedback_frame (1/5) (-(1/4)) [⟨"u", "e1", "event", 1, "text-based similarity"⟩]
      [⟨"x", "event", "e9", -1⟩]).2.2 0 ⟨"u", "e1", "event", 1, "text-based similarity"⟩
      rfl (by decide)⟩

/-! ### C2 — simulate_feedback performs no ratio validation -/

/-- Counterexample to C2: `simulate_feedback` has no validation path at all
(the source never raises on its ratios — the embedding is a total
function).  With `positive_ratio = negative_ratio = 9/10`, whose sum `9/5`
exceeds 1, the call succeeds and classifies a draw of `1/2` as a dislike. -/
theorem simulate_feedback_no_ratio_error :
    ((9 : ℚ)/10 < 0 ∨ (1 : ℚ) < 9/10 ∨ (1 : ℚ) < 9/10 + 9/10) ∧
    simulate_feedback [⟨"u", "e1", "event", 1, "text-based similarity"⟩] (9/10) (9/10)
        [1/2] = [⟨"u", "event", "e1", -1⟩] := by
  constructor
  · right; right; norm_num
  · rw [simulate_feedback]
    simp only [List.zip_cons_cons, List.zip_nil_right, List.filterMap_cons,
      List.filterMap_nil]
    norm_num

/-- C2 as amended: `simulate_feedback` succeeds for every ratio values,
valid or not; it never signals an error.  Per recommendation it emits a
dislike when the draw falls below `negative_ratio`, a like when the draw
falls in `[negative_ratio, negative_ratio + positive_ratio)`, and nothing
otherwise, and it never emits more entries than recommendations. -/
theorem simulate_feedback_total (recs : List Recommendation)
    (posRatioArg negRatioArg : ℚ) (draws : List ℚ) (rec : Recommendation) (r : ℚ) :
    (simulate_feedback recs posRatioArg negRatioArg draws).length ≤ recs.length ∧
    simulate_feedback [rec] posRatioArg negRatioArg [r] =
      (if r < negRatioArg then [⟨rec.user_id, rec.asset_type, rec.asset_id, -1⟩]
       else if r < negRatioArg + posRatioArg then
         [⟨rec.user_id, rec.asset_type, rec.asset_id, 1⟩]
       else []) := by
  constructor
  · rw [simulate_feedback]
    exact le_trans (List.length_filterMap_le _ _)
      (by rw [List.length_zip]; exact min_le_left _ _)
  · rw [simulate_feedback]
    simp only [List.zip_cons_cons, List.zip_nil_right, List.filterMap_cons,
      List.filterMap_nil]
    by_cases h1 : r < negRatioArg
    · simp [h1]
    · by_cases h2 : r < negRatioArg + posRatioArg
      · simp [h1, h2]
      · simp [h1, h2]

/-! ### Sorting lemmas -/

theorem mem_insertDesc (p q : Asset × ℚ) (l : List (Asset × ℚ)) :
    q ∈ insertDesc p l ↔ q = p ∨ q ∈ l := by
  induction l with
  | nil => simp [insertDesc]
  | cons x xs ih =>
    rw [insertDesc]
    by_cases h : p.2 < x.2
    · rw [if_pos h]
      simp only [List.mem_cons, ih]
      tauto
    · rw [if_neg h]
      simp only [List.mem_cons]

theorem sortedDesc_insertDesc (p : Asset × ℚ) (l : List (Asset × ℚ))
    (hl : l.Pairwise (fun x y => y.2 ≤ x.2)) :
    (insertDesc p l).Pairwise (fun x y => y.2 ≤ x.2) := by
  induction l with
  | nil => simp [insertDesc]
  | cons x xs ih =>
    rw [insertDesc]
    rcases List.pairwise_cons.mp hl with ⟨hx, hxs⟩
    by_cases h : p.2 < x.2
    · rw [if_pos h]
      refine List.pairwise_cons.mpr ⟨?_, ih hxs⟩
      intro y hy
      rcases (mem_insertDesc p y xs).mp hy with rfl | hmem
      · exact le_of_lt h
      · exact hx y hmem
    · rw [if_neg h]
      refine List.pairwise_cons.mpr ⟨?_, hl⟩
      intro y hy
      rcases List.mem_cons.mp hy with rfl | hmem
      · exact not_lt.mp h
      · exact le_trans (hx y hmem) (not_lt.mp h)

theorem sortedDesc_sortDesc (l : List (Asset × ℚ)) :
    (sortDesc l).Pairwise (fun x y => y.2 ≤ x.2) := by
  induction l with
  | nil => simp [sortDesc]
  | cons p ps ih => exact sortedDesc_insertDesc p _ ih

/-! ### C1 — rank returns at most top_n entries, sorted by score -/

/-- C1 (amended): `recommend_for_user` returns at most `top_n` entries,
sorted by non-increasing `final_score`.  The claim's tie-break clause is
dropped: on equal scores the source's order is whatever `np.argsort`'s
implementation-defined tie order yields, and in particular it is not
ascending asset id (see the counterexample). -/
theorem rank_top_n_sorted (user : UserRow) (uvec : List ℚ) (assets : List Asset)
    (asset_type : String) (top_n : ℕ) :
    (recommend_for_user user uvec assets asset_type top_n).length ≤ top_n ∧
    (recommend_for_user user uvec assets asset_type top_n).Pairwise
      (fun r1 r2 => r2.score ≤ r1.score) := by
  constructor
  · rw [recommend_for_user, List.length_map]
    exact List.length_take_le _ _
  · rw [recommend_for_user, List.pairwise_map]
    exact (sortedDesc_sortDesc _).sublist (List.take_sublist _ _)

/-! ### Min/max lemmas for the popularity pool -/

theorem foldl_min_le (xs : List ℚ) (x : ℚ) : ∀ y, y = x ∨ y ∈ xs → xs.foldl min x ≤ y := by
  induction xs generalizing x with
  | nil =>
    intro y hy
    rcases hy with rfl | h
    · simp
    · cases h
  | cons z zs ih =>
    intro y hy
    rw [List.foldl_cons]
    rcases hy with rfl | hz
    · exact le_trans (ih (min y z) (min y z) (Or.inl rfl)) (min_le_left y z)
    · rcases List.mem_cons.mp hz with rfl | hmem
      · exact le_trans (ih (min x y) (min x y) (Or.inl rfl)) (min_le_right x y)
      · exact ih (min x z) y (Or.inr hmem)

theorem le_foldl_max (xs : List ℚ) (x : ℚ) : ∀ y, y = x ∨ y ∈ xs → y ≤ xs.foldl max x := by
  induction xs generalizing x with
  | nil =>
    intro y hy
    rcases hy with rfl | h
    · simp
    · cases h
  | cons z zs ih =>
    intro y hy
    rw [List.foldl_cons]
    rcases hy with rfl | hz
    · exact le_trans (le_max_left y z) (ih (max y z) (max y z) (Or.inl rfl))
    · rcases List.mem_cons.mp hz with rfl | hmem
      · exact le_trans (le_max_right x y) (ih (max x y) (max x y) (Or.inl rfl))
      · exact ih (max x z) y (Or.inr hmem)

theorem listMin_le (l : List ℚ) (y : ℚ) (hy : y ∈ l) : listMin l ≤ y := by
  cases l with
  | nil => cases hy
  | cons x xs =>
    rw [listMin]
    rcases List.mem_cons.mp hy with rfl | hmem
    · exact foldl_min_le xs y y (Or.inl rfl)
    · exact foldl_min_le xs x y (Or.inr hmem)

theorem le_listMax (l : List ℚ) (y : ℚ) (hy : y ∈ l) : y ≤ listMax l := by
  cases l with
  | nil => cases hy
  | cons x xs =>
    rw [listMax]
    rcases List.mem_cons.mp hy with rfl | hmem
    · exact le_foldl_max xs y y (Or.inl rfl)
    · exact le_foldl_max xs x y (Or.inr hmem)

/-! ### C6 — popularity formula and asymmetric min-max normalisation -/

/-- C6: each asset's raw popularity is
`max(1, non-empty tag token count) + description_length/1000`; when the
pool has spread (`max raw > min raw`) the published value is the min-max
rescaling, which lands in `[0,1]`; otherwise (all raws tie, including a
single-asset pool) the raw value is published unnormalised. -/
theorem popularity_formula_minmax (assets : List Asset) (a : Asset) (ha : a ∈ assets) :
    rawPop a = ((max 1 (tagCount a.tags) : ℕ) : ℚ) + (a.description.data.length : ℚ) / 1000 ∧
    (a.id, popVal assets a) ∈ compute_popularity_score assets ∧
    (listMin (assets.map rawPop) < listMax (assets.map rawPop) →
      popVal assets a =
        (rawPop a - listMin (assets.map rawPop))
          / (listMax (assets.map rawPop) - listMin (assets.map rawPop)) ∧
      0 ≤ popVal assets a ∧ popVal assets a ≤ 1) ∧
    (¬ listMin (assets.map rawPop) < listMax (assets.map rawPop) →
      popVal assets a = rawPop a) := by
  refine ⟨rfl, List.mem_map_of_mem _ ha, ?_, ?_⟩
  · intro hlt
    have heq : popVal assets a =
        (rawPop a - listMin (assets.map rawPop))
          / (listMax (assets.map rawPop) - listMin (assets.map rawPop)) := by
      rw [popVal, if_pos hlt]
    have hmin : listMin (assets.map rawPop) ≤ rawPop a :=
      listMin_le _ _ (List.mem_map_of_mem rawPop ha)
    have hmax : rawPop a ≤ listMax (assets.map rawPop) :=
      le_listMax _ _ (List.mem_map_of_mem rawPop ha)
    have hd : 0 < listMax (assets.map rawPop) - listMin (assets.map rawPop) :=
      sub_pos.mpr hlt
    refine ⟨heq, ?_, ?_⟩
    · rw [heq]
      exact div_nonneg (sub_nonneg.mpr hmin) (le_of_lt hd)
    · rw [heq]
      exact (div_le_one hd).mpr (sub_le_sub_right hmax _)
  · intro hge
    rw [popVal, if_neg hge]

/-- Witness for C6: a two-asset pool with spread (raws 1 and 2) — the
normalisation branch fires and the published values sit in `[0,1]`. -/
theorem popularity_formula_minmax_witness :
    listMin ([⟨"p1", "", "", "", "", []⟩, ⟨"p2", "", "", "t1;t2", "", []⟩].map rawPop) <
      listMax ([⟨"p1", "", "", "", "", []⟩, ⟨"p2", "", "", "t1;t2", "", []⟩].map rawPop) ∧
    popVal [⟨"p1", "", "", "", "", []⟩, ⟨"p2", "", "", "t1;t2", "", []⟩]
        ⟨"p2", "", "", "t1;t2", "", []⟩ =
      (rawPop ⟨"p2", "", "", "t1;t2", "", []⟩ -
          listMin ([⟨"p1", "", "", "", "", []⟩, ⟨"p2", "", "", "t1;t2", "", []⟩].map rawPop))
        / (listMax ([⟨"p1", "", "", "", "", []⟩, ⟨"p2", "", "", "t1;t2", "", []⟩].map rawPop) -
            listMin ([⟨"p1", "", "", "", "", []⟩, ⟨"p2", "", "", "t1;t2", "", []⟩].map rawPop)) ∧
    0 ≤ popVal [⟨"p1", "", "", "", "", []⟩, ⟨"p2", "", "", "t1;t2", "", []⟩]
        ⟨"p2", "", "", "t1;t2", "", []⟩ ∧
    popVal [⟨"p1", "", "", "", "", []⟩, ⟨"p2", "", "", "t1;t2", "", []⟩]
        ⟨"p2", "", "", "t1;t2", "", []⟩ ≤ 1 := by
  have hr1 : rawPop ⟨"p1", "", "", "", "", []⟩ = 1 := by
    rw [rawPop, show tagCount (Asset.tags ⟨"p1", "", "", "", "", []⟩) = 0 from by decide]
    norm_num
  have hr2 : rawPop ⟨"p2", "", "", "t1;t2", "", []⟩ = 2 := by
    rw [rawPop, show tagCount (Asset.tags ⟨"p2", "", "", "t1;t2", "", []⟩) = 2 from by decide]
    norm_num
  have hmap : [⟨"p1", "", "", "", "", []⟩, ⟨"p2", "", "", "t1;t2", "", []⟩].map rawPop
      = [1, 2] := by
    rw [List.map_cons, List.map_cons, List.map_nil, hr1, hr2]
  have hlt : listMin ([⟨"p1", "", "", "", "", []⟩, ⟨"p2", "", "", "t1;t2", "", []⟩].map rawPop) <
      listMax ([⟨"p1", "", "", "", "", []⟩, ⟨"p2", "", "", "t1;t2", "", []⟩].map rawPop) := by
    rw [hmap, listMin, listMax]
    norm_num
  have h := (popularity_formula_minmax
    [⟨"p1", "", "", "", "", []⟩, ⟨"p2", "", "", "t1;t2", "", []⟩]
    ⟨"p2", "", "", "t1;t2", "", []⟩
    (List.mem_cons_of_mem _ (List.mem_cons_self _ _))).2.2.1 hlt
  exact ⟨hlt, h.1, h.2.1, h.2.2⟩

/-! ### Association-list lookup for unique ids -/

theorem lookup_map_id (f : Asset → ℚ) (l : List Asset) (a : Asset)
    (hnd : (l.map (fun x => x.id)).Nodup) (ha : a ∈ l) :
    (l.map (fun x => (x.id, f x))).lookup a.id = some (f a) := by
  induction l with
  | nil => cases ha
  | cons b t ih =>
    rw [List.map_cons] at hnd
    rw [List.map_cons]
    rcases List.mem_cons.mp ha with rfl | hmem
    · simp [List.lookup]
    · have hne : a.id ≠ b.id := by
        intro he
        have hmm : a.id ∈ t.map (fun x => x.id) := List.mem_map_of_mem _ hmem
        rw [he] at hmm
        exact (List.nodup_cons.mp hnd).1 hmm
      have hbeq : (a.id == b.id) = false := beq_eq_false_iff_ne.mpr hne
      simp [List.lookup, hbeq, ih (List.nodup_cons.mp hnd).2 hmem]

/-- Lookup `popularity.get(eid, 0.0)` retrieves exactly the asset's own popularity
value when asset ids are unique in the pool. -/
theorem popLookup_eq (assets : List Asset) (a : Asset)
    (hnd : (assets.map (fun x => x.id)).Nodup) (ha : a ∈ assets) :
    popLookup assets a.id = popVal assets a := by
  rw [popLookup, compute_popularity_score,
    lookup_map_id (popVal assets) assets a hnd ha, Option.getD_some]

/-! ### C4 — cold-start branch vs similarity branch -/

/-- C4: a user with the zero embedding vector gets popularity base scores
and reason `"popularity fallback"` for every candidate; a user with a
non-zero vector gets cosine-similarity base scores and reason
`"text-based similarity"`. -/
theorem rank_cold_start_branch (user : UserRow) (uvec : List ℚ) (assets : List Asset)
    (asset_type : String) (top_n : ℕ)
    (hnd : (assets.map (fun x => x.id)).Nodup) :
    (isZeroVec uvec = true →
      (∀ r ∈ recommend_for_user user uvec assets asset_type top_n,
        r.reason = "popularity fallback") ∧
      ∀ a ∈ assets, baseScore uvec assets a = popVal assets a) ∧
    (isZeroVec uvec = false →
      (∀ r ∈ recommend_for_user user uvec assets asset_type top_n,
        r.reason = "text-based similarity") ∧
      ∀ a ∈ assets, baseScore uvec assets a = dot uvec a.vec) := by
  constructor
  · intro hz
    constructor
    · intro r hr
      rw [recommend_for_user] at hr
      rcases List.mem_map.mp hr with ⟨p, _, rfl⟩
      show reasonFor uvec = _
      rw [reasonFor, hz]
      simp
    · intro a ha
      rw [baseScore, hz]
      simp only [ite_true]
      exact popLookup_eq assets a hnd ha
  · intro hz
    constructor
    · intro r hr
      rw [recommend_for_user] at hr
      rcases List.mem_map.mp hr with ⟨p, _, rfl⟩
      show reasonFor uvec = _
      rw [reasonFor, hz]
      simp
    · intro a _
      rw [baseScore, hz]
      simp

/-- Witness for C4: a concrete cold-start user (zero vector) over a
one-asset pool — the base score is the asset's popularity value. -/
theorem rank_cold_start_branch_witness :
    (([⟨"w", "", "", "", "", [0]⟩] : List Asset).map (fun x => x.id)).Nodup ∧
    isZeroVec [0] = true ∧
    baseScore [0] [⟨"w", "", "", "", "", [0]⟩] ⟨"w", "", "", "", "", [0]⟩ =
      popVal [⟨"w", "", "", "", "", [0]⟩] ⟨"w", "", "", "", "", [0]⟩ :=
  ⟨by decide, by decide,
    ((rank_cold_start_branch ⟨"cold", "", ""⟩ [0] [⟨"w", "", "", "", "", [0]⟩] "events" 10
        (by decide)).1 (by decide)).2 ⟨"w", "", "", "", "", [0]⟩ (List.mem_cons_self _ _)⟩

/-! ### C1 counterexample — ties are not broken by ascending asset id -/

/-- Cold-start user for the tie-order counterexample. -/
def tieUser : UserRow := ⟨"u", "", ""⟩

/-- First candidate in dataframe order: id `"b"`. -/
def tieB : Asset := ⟨"b", "", "", "", "", [0]⟩

/-- Second candidate in dataframe order: id `"a"`. -/
def tieA : Asset := ⟨"a", "", "", "", "", [0]⟩

/-- Counterexample to C1's tie-break clause: the two candidates tie at
final score `103/100` (uniform popularity 1 plus the empty-tag boost
`3/100`), yet the output lists id `"b"` before id `"a"` — candidate-list
order, not ascending asset id.  (`np.argsort` on a two-element array keeps
the original order of equal keys, as does any deterministic comparison
sort.) -/
theorem rank_tie_order_counterexample :
    (recommend_for_user tieUser [0] [tieB, tieA] "events" 10).map (fun r => r.score) =
      [103/100, 103/100] ∧
    (recommend_for_user tieUser [0] [tieB, tieA] "events" 10).map (fun r => r.asset_id) =
      ["b", "a"] ∧
    (recommend_for_user tieUser [0] [tieB, tieA] "events" 10).map (fun r => r.asset_id) ≠
      ["a", "b"] := by
  have hz : isZeroVec [0] = true := by decide
  have hbB : boost tieUser tieB = 3/100 := by
    rw [boost, show cityMatch tieUser tieB = false from by decide,
      show catOverlap tieUser tieB = false from by decide,
      show tagOverlap tieUser tieB = true from by decide]
    norm_num
  have hbA : boost tieUser tieA = 3/100 := by
    rw [boost, show cityMatch tieUser tieA = false from by decide,
      show catOverlap tieUser tieA = false from by decide,
      show tagOverlap tieUser tieA = true from by decide]
    norm_num
  have hrB : rawPop tieB = 1 := by
    rw [rawPop, show tagCount (Asset.tags tieB) = 0 from by decide]
    norm_num [tieB]
  have hrA : rawPop tieA = 1 := by
    rw [rawPop, show tagCount (Asset.tags tieA) = 0 from by decide]
    norm_num [tieA]
  have hmap : [tieB, tieA].map rawPop = [1, 1] := by
    rw [List.map_cons, List.map_cons, List.map_nil, hrB, hrA]
  have hnlt : ¬ listMin ([tieB, tieA].map rawPop) < listMax ([tieB, tieA].map rawPop) := by
    rw [hmap, listMin, listMax]
    simp
  have hpB : popVal [tieB, tieA] tieB = 1 := by
    rw [popVal, if_neg hnlt]
    exact hrB
  have hpA : popVal [tieB, tieA] tieA = 1 := by
    rw [popVal, if_neg hnlt]
    exact hrA
  have hlB : popLookup [tieB, tieA] tieB.id = 1 := by
    rw [popLookup_eq [tieB, tieA] tieB (by decide) (List.mem_cons_self _ _)]
    exact hpB
  have hlA : popLookup [tieB, tieA] tieA.id = 1 := by
    rw [popLookup_eq [tieB, tieA] tieA (by decide)
      (List.mem_cons_of_mem _ (List.mem_cons_self _ _))]
    exact hpA
  have hfB : finalScore tieUser [0] [tieB, tieA] tieB = 103/100 := by
    rw [finalScore, baseScore, hz]
    simp only [ite_true]
    rw [hlB, hbB]
    norm_num
  have hfA : finalScore tieUser [0] [tieB, tieA] tieA = 103/100 := by
    rw [finalScore, baseScore, hz]
    simp only [ite_true]
    rw [hlA, hbA]
    norm_num
  have hsing : singularize "events" = "event" := by decide
  have hreason : reasonFor [0] = "popularity fallback" := by decide
  have hrec : recommend_for_user tieUser [0] [tieB, tieA] "events" 10 =
      [⟨"u", "b", "event", 103/100, "popularity fallback"⟩,
       ⟨"u", "a", "event", 103/100, "popularity fallback"⟩] := by
    rw [recommend_for_user, List.map_cons, List.map_cons, List.map_nil, hfB, hfA]
    simp only [sortDesc, insertDesc]
    norm_num
    simp [List.take, hsing, hreason, tieUser, tieB, tieA]
  rw [hrec]
  refine ⟨rfl, rfl, ?_⟩
  decide
